import Mathlib

/-
Shallow embedding of the DataScout crawl/extraction engine.

Sources embedded:
  * src/src/services/scraper/index.ts   (ScraperService: startScraping, fetchUrl,
    scrapeUrl, processSelectors, applySelector, extractValueFromElement,
    structureResults, getNextPageUrl, stopScraping, handleError)
  * src/src/store/slices/scraperSlice.ts (the redux reducers the service dispatches)

Conventions of the embedding:
  * JavaScript numbers are Nat (all counters / delays involved are non-negative
    integers); Date.now() is a constant supplied in the environment.
  * `string | null` values are Option String; the JS coercion `x || y` on strings
    (which treats the empty string as falsy) is modelled explicitly.
  * The external libraries (axios, cheerio, the RegExp engine) are modelled as
    oracles: a page oracle answers structural queries and compiles patterns, a
    fetch oracle gives the outcome of each HTTP attempt.  Exceptions thrown by
    them are `Except.error` values; the service's try/catch blocks become matches.
  * Non-termination (the unguarded RegExp exec loop, the pause poll with no
    external event, an unbounded pagination loop) is made observable with fuel:
    a `none` / `.hung` result means the corresponding source loop never returns.
-/

namespace DataScout

/-! ## Data model (types/scraper, shapes as used by the service and the slice) -/

/-- An extracted value stored in a record: `string | string[] | null` in the
source (`SelectorResult.value` and `ScrapedItem` fields). -/
inductive EValue where
  | str (s : String)
  | arr (l : List String)
  | vnull
deriving DecidableEq, Repr

/-- `interface SelectorResult { name: string; value: string | string[] | null }`;
the service only ever pushes non-null values, but the type allows them. -/
structure SelectorResult where
  name : String
  value : EValue
deriving DecidableEq, Repr

/-- One row of structured output (`ScrapedItem`): a JS object keyed by selector
name, modelled as an insertion-ordered association list. -/
def Item : Type := List (String × EValue)

instance : DecidableEq Item := by unfold Item; infer_instance

/-- `SelectorConfig` from types/scraper: `attribute` is optional (here `attr`,
since `attribute` is reserved in Lean). -/
structure SelectorConfig where
  id : String
  name : String
  type : String
  value : String
  attr : Option String
  multiple : Bool
deriving DecidableEq, Repr

/-- `PaginationConfig`: `maxPages` is a JS number; the service tests
`!pagination.maxPages`, which is true exactly when the field is 0 or absent,
so `0` here means "no page bound". -/
structure PaginationConfig where
  enabled : Bool
  type : String
  selector : String
  maxPages : Nat
deriving DecidableEq, Repr

/-- `RateLimitConfig` (only `requestDelay` is read by the service). -/
structure RateLimitConfig where
  requestDelay : Nat
  concurrentRequests : Nat
  timeoutMs : Nat
  retries : Nat
deriving DecidableEq, Repr

/-- `ScraperConfig`: the extraction plan handed to `startScraping`. -/
structure ScraperConfig where
  url : String
  selectors : List SelectorConfig
  pagination : PaginationConfig
  rateLimit : RateLimitConfig
  headers : List (String × String)
deriving DecidableEq, Repr

/-- The slice's `status` union: `'idle' | 'running' | 'paused' | 'completed' |
'error'` (the spec's `failed` phase is the code's `'error'`). -/
inductive Status where
  | idle
  | running
  | paused
  | completed
  | error
deriving DecidableEq, Repr

/-- The slice's `progress` object. -/
structure Progress where
  current : Nat
  total : Nat
  startTime : Option Nat
  endTime : Option Nat
deriving DecidableEq, Repr

/-- A run-history entry pushed by `completeScraping`.  The `id` field produced
by `uuidv4()` is external randomness and is not modelled. -/
structure HistoryEntry where
  url : String
  timestamp : Nat
  itemCount : Nat
deriving DecidableEq, Repr

/-- The scraper slice of the redux store (`ScraperState`). -/
structure ScraperState where
  config : ScraperConfig
  status : Status
  data : List Item
  error : Option String
  progress : Progress
  history : List HistoryEntry
deriving DecidableEq

/-- `initialState` of scraperSlice.ts. -/
def initialState : ScraperState :=
  { config :=
      { url := ""
        selectors := []
        pagination := { enabled := false, type := "button", selector := "", maxPages := 1 }
        rateLimit :=
          { requestDelay := 1000, concurrentRequests := 1, timeoutMs := 30000, retries := 3 }
        headers := [("User-Agent",
          "Mozilla/5.0 (Windows NT 10.0; Win64; x64) AppleWebKit/537.36 (KHTML, like Gecko) Chrome/91.0.4472.124 Safari/537.36")] }
    status := .idle
    data := []
    error := none
    progress := { current := 0, total := 0, startTime := none, endTime := none }
    history := [] }

/-! ## Reducers (scraperSlice.ts) -/

/-- Reducer `setError`: sets `status = 'error'` and stores the message. -/
def setErrorReducer (msg : String) (st : ScraperState) : ScraperState :=
  { st with status := .error, error := some msg }

/-- Reducer `startScraping`: resets the run state and enters `running`. -/
def startScrapingReducer (now : Nat) (st : ScraperState) : ScraperState :=
  { st with status := .running, error := none, data := []
          , progress := { current := 0, total := 0, startTime := some now, endTime := none } }

/-- Reducer `stopScraping`: forces `status = 'idle'` and records the end time. -/
def stopScrapingReducer (now : Nat) (st : ScraperState) : ScraperState :=
  { st with status := .idle, progress := { st.progress with endTime := some now } }

/-- Reducer `completeScraping`: marks the run completed and appends a history
entry `{url, timestamp, itemCount}` for it. -/
def completeScrapingReducer (now : Nat) (st : ScraperState) : ScraperState :=
  { st with status := .completed
          , progress := { st.progress with endTime := some now }
          , history := st.history ++ [⟨st.config.url, now, st.data.length⟩] }

/-- Reducer `appendScrapedData`: `state.data = [...state.data, ...payload]`. -/
def appendScrapedDataReducer (items : List Item) (st : ScraperState) : ScraperState :=
  { st with data := st.data ++ items }

/-- Reducer `updateProgress`. -/
def updateProgressReducer (current total : Nat) (st : ScraperState) : ScraperState :=
  { st with progress := { st.progress with current := current, total := total } }

/-- `ScraperService.handleError`: maps the thrown value to a human-readable
message and dispatches `setError`.  Errors are modelled as their final message
string, so the mapping is the identity here. -/
def handleErrorState (msg : String) (st : ScraperState) : ScraperState :=
  setErrorReducer msg st

/-! ## Pagination resolver (getNextPageUrl, lines 410-442) -/

/-- First-occurrence replacement on character lists: the semantics of JS
`String.prototype.replace` with a string pattern (it replaces only the first
occurrence, or returns the string unchanged when the pattern does not occur). -/
def replaceFirstList (pat repl : List Char) : List Char → List Char
  | [] => if pat.isPrefixOf ([] : List Char) then repl else []
  | c :: rest =>
    if pat.isPrefixOf (c :: rest) then repl ++ (c :: rest).drop pat.length
    else c :: replaceFirstList pat repl rest

/-- `s.replace(pat, repl)` for string pattern `pat` (first occurrence only). -/
def replaceFirst (s pat repl : String) : String :=
  ⟨replaceFirstList pat.data repl.data s.data⟩

/-- `getNextPageUrl(currentUrl, pagination, nextPageNum)`: `none` when
pagination is disabled or the selector/expression is empty (JS `!p.selector`);
`'url'` mode substitutes `{page}` in the expression; `'button'`, `'infinite'`
and unknown modes return `null` in the source. -/
def getNextPageUrl (_currentUrl : String) (p : PaginationConfig) (nextPageNum : Nat) :
    Option String :=
  if ¬p.enabled ∨ p.selector = "" then none
  else if p.type = "url" then
    some (replaceFirst p.selector "{page}" (toString nextPageNum))
  else if p.type = "button" then none
  else if p.type = "infinite" then none
  else none

/-! ## Record structurer (structureResults, lines 371-407) -/

/-- `structureResults(selectorResults)`: the map from selector name to its
result list is an insertion-ordered association list (JS object with string
keys).  `maxLength` starts at 1 and is raised by any longer result list; record
`i` takes `results[i].value` when in range, else broadcasts a single result,
else null. -/
def structureResults (selectorResults : List (String × List SelectorResult)) : List Item :=
  let maxLength :=
    selectorResults.foldl (fun m p => if p.2.length > m then p.2.length else m) 1
  (List.range maxLength).map fun i =>
    selectorResults.map fun p =>
      (p.1,
        match p.2[i]? with
        | some r => r.value
        | none =>
          match p.2 with
          | [r] => r.value
          | _ => EValue.vnull)

/-- Modelled from the spec (section 4.2), for comparison with the code: the
record count `n = max(1, max over selectors of result-list length)`. -/
def specMaxRecords (rs : List (String × List SelectorResult)) : Nat :=
  max 1 ((rs.map fun p => p.2.length).foldr max 0)

/-- Modelled from the spec (section 4.2), for comparison with the code: the
field value for record index `i` — the value at index `i` when in range, else
the single value broadcast when the selector produced exactly one result, else
null. -/
def specFieldValue (l : List SelectorResult) (i : Nat) : EValue :=
  if h : i < l.length then (l.get ⟨i, h⟩).value
  else if h1 : l.length = 1 then (l.get ⟨0, by omega⟩).value
  else EValue.vnull

/-! ## Selector evaluator (applySelector / extractValueFromElement) -/

/-- A matched document node, as seen through cheerio: its visible text
(`$el.text()`, always a string), its inner markup (`$el.html()`, a string or
null), and its attributes (`$el.attr(name)`, a string or undefined). -/
structure Element where
  text : String
  innerHtml : Option String
  attrs : List (String × String)
deriving DecidableEq, Repr

/-- The JS coercion `x || null` on a `string | null | undefined` value: an
empty string is falsy, so it is coerced to null as well. -/
def jsOrNull : Option String → Option String
  | some s => if s = "" then none else some s
  | none => none

/-- A whitespace character as trimmed by JS `String.prototype.trim` (the full
JS set also has form feed, vertical tab and unicode spaces; the common four
suffice for this model). -/
def isJsWhitespace (c : Char) : Bool :=
  c = ' ' ∨ c = '\t' ∨ c = '\n' ∨ c = '\r'

/-- `s.trim()`: strip whitespace from both ends. -/
def jsTrim (s : String) : String :=
  ⟨((s.data.dropWhile isJsWhitespace).reverse.dropWhile isJsWhitespace).reverse⟩

/-- `extractValueFromElement($, element, attribute)` (lines 348-368):
`'text'` gives `$el.text().trim()`; `'html'` gives `$el.html() || null`;
any other attribute name gives `$el.attr(attribute) || null`.  Its internal
try/catch has nothing to catch in this pure model. -/
def extractValueFromElement (el : Element) (attrName : String) : Option String :=
  if attrName = "text" then some (jsTrim el.text)
  else if attrName = "html" then jsOrNull el.innerHtml
  else jsOrNull (el.attrs.lookup attrName)

/-- The attribute actually passed by `applySelector`:
`selector.attribute || 'text'` (absent or empty means `'text'`). -/
def effAttr (sel : SelectorConfig) : String :=
  match sel.attr with
  | some a => if a = "" then "text" else a
  | none => "text"

/-- The parsed page and the raw body, seen by the evaluator through two
oracles: `query e` is cheerio's `$(e)` (matched elements in document order, or
a thrown parse error); `regex e` is `new RegExp(e, 'g')` (or a thrown syntax
error), compiled against the fixed raw body: the compiled function maps a
`lastIndex` to the next match `(match[0], new lastIndex)` or `none`.  Per JS
`exec` semantics the new `lastIndex` is the end position of the match, so an
empty-width match at position `li` returns `some (m, li)` — no progress. -/
structure PageOracle where
  query : String → Except String (List Element)
  regex : String → Except String (Nat → Option (String × Nat))

/-- The `while ((match = regex.exec(html)) !== null)` collection loop of the
`'regex'` branch (lines 323-326), with fuel to make its possible divergence
observable: `none` means the loop did not finish within `fuel` iterations (the
source has no guard advancing `lastIndex` past an empty-width match). -/
def regexLoop (exec : Nat → Option (String × Nat)) : Nat → Nat → Option (List String)
  | fuel, lastIndex =>
    match exec lastIndex with
    | none => some []
    | some (m, lastIndex') =>
      match fuel with
      | 0 => none
      | fuel + 1 => (regexLoop exec fuel lastIndex').map fun ms => m :: ms

/-- `applySelector($, html, selector)` (lines 278-345).  The surrounding
try/catch turns a thrown query/compile error into `handleError` plus the
results accumulated so far (none, since both throws happen before any push);
`'xpath'` and unknown types only log a warning.  The result is `none` exactly
when the regex collection loop diverges. -/
def applySelector (O : PageOracle) (fuel : Nat) (sel : SelectorConfig) (st : ScraperState) :
    Option (List SelectorResult × ScraperState) :=
  if sel.type = "css" then
    match O.query sel.value with
    | .error e => some ([], handleErrorState e st)
    | .ok elements =>
      if elements.isEmpty then some ([], st)
      else if sel.multiple then
        some (elements.filterMap
          (fun el => (extractValueFromElement el (effAttr sel)).map
            fun v => SelectorResult.mk sel.name (EValue.str v)), st)
      else
        match elements.head? with
        | some el =>
          match extractValueFromElement el (effAttr sel) with
          | some v => some ([SelectorResult.mk sel.name (EValue.str v)], st)
          | none => some ([], st)
        | none => some ([], st)
  else if sel.type = "xpath" then
    some ([], st)
  else if sel.type = "regex" then
    match O.regex sel.value with
    | .error e => some ([], handleErrorState e st)
    | .ok exec =>
      match regexLoop exec fuel 0 with
      | none => none
      | some ms =>
        if ms.isEmpty then some ([], st)
        else if sel.multiple then some ([SelectorResult.mk sel.name (EValue.arr ms)], st)
        else
          match ms with
          | m :: _ => some ([SelectorResult.mk sel.name (EValue.str m)], st)
          | [] => some ([], st)
  else
    some ([], st)

/-- JS object assignment `obj[k] = v` on an insertion-ordered association
list: overwrite in place when the key exists, else append. -/
def setKey (acc : List (String × List SelectorResult)) (k : String)
    (v : List SelectorResult) : List (String × List SelectorResult) :=
  if acc.any (fun p => p.1 == k) then
    acc.map fun p => if p.1 == k then (k, v) else p
  else acc ++ [(k, v)]

/-- The selector loop of `processSelectors` (lines 260-265): apply each
selector in order, keeping only non-empty result lists. -/
def processSelectorsGo (O : PageOracle) (fuel : Nat) :
    List SelectorConfig → List (String × List SelectorResult) → ScraperState →
    Option (List (String × List SelectorResult) × ScraperState)
  | [], acc, st => some (acc, st)
  | sel :: rest, acc, st =>
    match applySelector O fuel sel st with
    | none => none
    | some (results, st') =>
      processSelectorsGo O fuel rest
        (if results.isEmpty then acc else setKey acc sel.name results) st'

/-- `processSelectors(html, selectors)` (lines 248-275): evaluate every
selector, then structure the accumulated results.  Its outer try/catch has
nothing left to catch here, because each inner step already absorbs its own
errors. -/
def processSelectors (O : PageOracle) (fuel : Nat) (selectors : List SelectorConfig)
    (st : ScraperState) : Option (List Item × ScraperState) :=
  match processSelectorsGo O fuel selectors [] st with
  | none => none
  | some (acc, st') => some (structureResults acc, st')

/-! ## Fetch client (fetchUrl, lines 196-245) -/

/-- The outcome of one failed HTTP attempt: `msg` is the message `handleError`
would derive from the thrown value at exhaustion; `proxyNote` is the message of
the extra `handleError` dispatched inside the catch when the error is
proxy-shaped (502 / 504 / network error, lines 226-232), `none` otherwise. -/
structure FetchErr where
  msg : String
  proxyNote : Option String
deriving DecidableEq, Repr

/-- The lines 226-232 special-casing of proxy errors: an extra `handleError`
dispatch for 502/504/network failures, before the retry decision. -/
def proxyNoteState (e : FetchErr) (st : ScraperState) : ScraperState :=
  match e.proxyNote with
  | some m => handleErrorState m st
  | none => st

/-- `serviceConfig.maxRetries || 3`: 0 (or absent) means the default of 3. -/
def effMaxRetries (m : Nat) : Nat :=
  if m = 0 then 3 else m

/-- The recursion of `fetchUrl` (lines 196-245), with the attempt outcomes
supplied by an oracle `att` (attempt number to HTTP result).  `retriesLeft` is
`maxRetries - retryCount`, so the source's test `retryCount < maxRetries` is
the case split on `retriesLeft` here (the spec's section 9 itself asks for this
loop-with-counter shape); the success path of the two cases is identical, the
failure path retries with backoff while retries remain and otherwise reports
the error and returns null.  Returns the body (or null after exhaustion, never a
throw), the store state after the internal `handleError` dispatches, the list
of backoff delays waited in ms (`2^retryCount * 1000` before each retry), and
the number of attempts made. -/
def fetchUrlGo (att : Nat → Except FetchErr String) :
    Nat → Nat → ScraperState → Option String × ScraperState × List Nat × Nat
  | 0, retryCount, st =>
    match att retryCount with
    | .ok body => (some body, st, [], 1)
    | .error e => (none, handleErrorState e.msg (proxyNoteState e st), [], 1)
  | left + 1, retryCount, st =>
    match att retryCount with
    | .ok body => (some body, st, [], 1)
    | .error e =>
      let r := fetchUrlGo att left (retryCount + 1) (proxyNoteState e st)
      (r.1, r.2.1, (2 ^ retryCount * 1000) :: r.2.2.1, r.2.2.2 + 1)

/-- `fetchUrl(url, headers)` with `retryCount = 0`. -/
def fetchUrl (att : Nat → Except FetchErr String) (maxRetries : Nat) (st : ScraperState) :
    Option String × ScraperState × List Nat × Nat :=
  fetchUrlGo att maxRetries 0 st

/-! ## Crawl controller (startScraping / scrapeUrl / stopScraping) -/

/-- The mutable fields of the `ScraperService` instance that the embedded
claims observe (`currentPage` is written but never read by the service). -/
structure Svc where
  isRunning : Bool
  isPaused : Bool
  shouldStop : Bool
  processedItems : Nat
  totalItems : Nat
deriving DecidableEq, Repr

/-- The outcome of a service call: a normal return, an exception propagating
out (`scrapeUrl` rethrows after its `handleError`), or non-termination. -/
inductive Res (α : Type) where
  | ok (a : α)
  | threw (msg : String) (a : α)
  | hung
deriving DecidableEq

/-- The per-run environment: the fetch oracle per address, the page oracle per
address, the constant modelling `Date.now()`, `serviceConfig.maxRetries`, and
the fuel bounding the regex loop and the pagination loop. -/
structure Env where
  att : String → Nat → Except FetchErr String
  oracle : String → PageOracle
  now : Nat
  maxRetries : Nat
  fuel : Nat

/-- `scrapeUrl(url, selectors, headers)` (lines 161-193): fetch, throw on a
null body (after `handleError`), else extract, update the progress counters
(`processedItems` / `totalItems`), and append the records.  Also returns the
backoff delays and attempt count of the fetch. -/
def scrapeUrl (env : Env) (url : String) (selectors : List SelectorConfig)
    (svc : Svc) (st : ScraperState) : Res (Svc × ScraperState) × List Nat × Nat :=
  let f := fetchUrl (env.att url) (effMaxRetries env.maxRetries) st
  match f.1 with
  | none =>
    let msg := "Failed to fetch content from " ++ url
    (.threw msg (svc, handleErrorState msg f.2.1), f.2.2.1, f.2.2.2)
  | some _ =>
    match processSelectors (env.oracle url) env.fuel selectors f.2.1 with
    | none => (.hung, f.2.2.1, f.2.2.2)
    | some (items, st2) =>
      let svc' := { svc with processedItems := svc.processedItems + items.length,
                              totalItems := svc.totalItems + items.length }
      let st3 := updateProgressReducer svc'.processedItems svc'.totalItems st2
      let st4 := appendScrapedDataReducer items st3
      (.ok (svc', st4), f.2.2.1, f.2.2.2)

/-- `stopScraping()` (lines 147-151): set the stop flag, clear the pause flag,
and dispatch the `stopScraping` reducer (phase becomes idle immediately). -/
def stopScrapingCall (now : Nat) (svc : Svc) (st : ScraperState) : Svc × ScraperState :=
  ({ svc with shouldStop := true, isPaused := false }, stopScrapingReducer now st)

/-- The completion guard after the loop (lines 126-128): dispatch
`completeScraping` only when no stop was requested. -/
def finishRun (now : Nat) (svc : Svc) (st : ScraperState) : ScraperState :=
  if svc.shouldStop then st else completeScrapingReducer now st

/-- The pagination `while` loop of `startScraping` (lines 90-122), returning
the service flags, the store state and the number of pages scraped inside the
loop.  The loop runs while a next URL exists, the service is running, no stop
was requested, and the page budget (`!maxPages || pagesScraped < maxPages`)
remains.  The pause poll (lines 97-110) resolves only when an external call
flips the flags; with no such event in a pure iteration it spins forever
(`.hung`), and when the wait resolves because of a stop it breaks (line 109).
The rate-limit delay only consumes time, which the claims do not observe.
A throw from `scrapeUrl` propagates out of the loop. -/
def crawlLoop (env : Env) (cfg : ScraperConfig) :
    Nat → Svc → ScraperState → Option String → Nat → Res (Svc × ScraperState × Nat)
  | fuel, svc, st, nextPageUrl, pagesScraped =>
    match nextPageUrl with
    | none => .ok (svc, st, 0)
    | some current =>
      if ¬svc.isRunning ∨ svc.shouldStop ∨
          ¬(cfg.pagination.maxPages = 0 ∨ pagesScraped < cfg.pagination.maxPages) then
        .ok (svc, st, 0)
      else
        match fuel with
        | 0 => .hung
        | fuel + 1 =>
          if svc.isPaused then
            if svc.shouldStop then .ok (svc, st, 0) else .hung
          else
            match getNextPageUrl current cfg.pagination (pagesScraped + 1) with
            | none => crawlLoop env cfg fuel svc st none pagesScraped
            | some u =>
              match scrapeUrl env u cfg.selectors svc st with
              | (.ok (svc', st'), _, _) =>
                match crawlLoop env cfg fuel svc' st' (some u) (pagesScraped + 1) with
                | .ok (svc2, st2, n) => .ok (svc2, st2, n + 1)
                | .threw e (svc2, st2, n) => .threw e (svc2, st2, n + 1)
                | .hung => .hung
              | (.threw e (svc', st'), _, _) => .threw e (svc', st', 1)
              | (.hung, _, _) => .hung

/-- The guard of `startScraping` (lines 69-72): an empty URL or an empty
selector list rejects the plan. -/
def startGuardRejects (cfg : ScraperConfig) : Prop :=
  cfg.url = "" ∨ cfg.selectors = []

instance (cfg : ScraperConfig) : Decidable (startGuardRejects cfg) := by
  unfold startGuardRejects; infer_instance

/-- `startScraping(config)` (lines 66-134): reject invalid plans via
`setError`; otherwise reset the service flags, scrape the initial page, run the
pagination loop when enabled (`pagination?.enabled && pagination.selector`),
dispatch `completeScraping` unless stopped, `handleError` on any caught throw,
and clear `isRunning` in the `finally`.  The `Nat` in the result counts pages
scraped. -/
def startScrapingModel (env : Env) (cfg : ScraperConfig) (svc : Svc) (st : ScraperState)
    (fuel : Nat) : Res (Svc × ScraperState × Nat) :=
  if startGuardRejects cfg then
    .ok (svc, setErrorReducer "URL and at least one selector are required" st, 0)
  else
    let svc1 : Svc :=
      { isRunning := true, isPaused := false, shouldStop := false
      , processedItems := 0, totalItems := 0 }
    match scrapeUrl env cfg.url cfg.selectors svc1 st with
    | (.threw e (svc', st'), _, _) =>
      .ok ({ svc' with isRunning := false }, handleErrorState e st', 1)
    | (.hung, _, _) => .hung
    | (.ok (svc', st'), _, _) =>
      let afterLoop :=
        if cfg.pagination.enabled ∧ cfg.pagination.selector ≠ "" then
          crawlLoop env cfg fuel svc' st' (some cfg.url) 1
        else .ok (svc', st', 0)
      match afterLoop with
      | .ok (svc2, st2, n) =>
        .ok ({ svc2 with isRunning := false }, finishRun env.now svc2 st2, n + 1)
      | .threw e (svc2, st2, n) =>
        .ok ({ svc2 with isRunning := false }, handleErrorState e st2, n + 1)
      | .hung => .hung

/-- Dispatching the `startScraping` action: the middleware first lets the
reducer reset the run state, then calls `scraperService.startScraping` with
the config held in the store (src/src/store/middleware, part_001). -/
def dispatchStart (env : Env) (svc : Svc) (st : ScraperState) (fuel : Nat) :
    Res (Svc × ScraperState × Nat) :=
  startScrapingModel env st.config svc (startScrapingReducer env.now st) fuel

/-! ## Concrete fixtures used by witnesses and counterexamples -/

/-- A page oracle for a page with no matches: every structural query matches
nothing, every pattern compiles but never matches. -/
def emptyOracle : PageOracle :=
  { query := fun _ => .ok []
  , regex := fun _ => .ok fun _ => none }

/-- A service instance at rest. -/
def svc0 : Svc := ⟨false, false, false, 0, 0⟩

/-- An environment whose every fetch attempt fails with a plain network error. -/
def envW : Env :=
  { att := fun _ _ => .error ⟨"network error", none⟩
  , oracle := fun _ => emptyOracle
  , now := 111
  , maxRetries := 3
  , fuel := 5 }

/-! ## C6: pagination resolver -/

/-- Claim C6: the pagination resolver returns none whenever the spec is
disabled or its expression is absent; in address-pattern (`'url'`) mode it
substitutes `{page}` in the expression with the next page index and always
returns an address; with expression `"https://x.test/p?page={page}"` and next
page index 3 it returns `"https://x.test/p?page=3"`. -/
theorem getNextPageUrl_spec :
    (∀ cur p n, (p.enabled = false ∨ p.selector = "") → getNextPageUrl cur p n = none) ∧
    (∀ cur p n, p.enabled = true → p.selector ≠ "" → p.type = "url" →
      getNextPageUrl cur p n = some (replaceFirst p.selector "{page}" (toString n))) ∧
    getNextPageUrl "https://x.test/p?page=2"
      ⟨true, "url", "https://x.test/p?page={page}", 0⟩ 3 = some "https://x.test/p?page=3" := by
  refine ⟨?_, ?_, by decide⟩
  · intro cur p n h
    unfold getNextPageUrl
    rcases h with h | h
    · rw [if_pos (Or.inl (by simp [h]))]
    · rw [if_pos (Or.inr h)]
  · intro cur p n he hs ht
    unfold getNextPageUrl
    rw [if_neg (by simp [he, hs]), if_pos ht]

/-- Witness for `getNextPageUrl_spec` at concrete inputs. -/
theorem getNextPageUrl_spec_witness :
    getNextPageUrl "u" ⟨false, "url", "e{page}", 0⟩ 2 = none ∧
    getNextPageUrl "u" ⟨true, "url", "p={page}", 0⟩ 5
      = some (replaceFirst "p={page}" "{page}" (toString 5)) :=
  ⟨getNextPageUrl_spec.1 "u" ⟨false, "url", "e{page}", 0⟩ 2 (Or.inl rfl),
   getNextPageUrl_spec.2.1 "u" ⟨true, "url", "p={page}", 0⟩ 5 rfl (by decide) rfl⟩

/-! ## C7: value derivation from a matched node -/

/-- Counterexample to claim C7: the claim allows an empty inner-markup result
as a value for attribute `'html'`, but the code's `$el.html() || null` coerces
the empty string to null, so a node with empty inner markup yields null. -/
theorem extractValue_html_empty_counterexample :
    extractValueFromElement ⟨"t", some "", []⟩ "html" = none ∧
    extractValueFromElement ⟨"t", some "", []⟩ "html" ≠ some "" := by decide

/-- Claim C7 as amended: `'text'` yields the trimmed inner text; `'html'`
yields the inner markup only when it is non-empty, and null when the markup is
absent or empty (the empty result is coerced to null); any other attribute
name yields the named attribute's value when present and non-empty, and null
when the attribute is absent or its value is empty. -/
theorem extractValue_spec (el : Element) (a : String) :
    (extractValueFromElement el "text" = some (jsTrim el.text)) ∧
    (∀ h, el.innerHtml = some h → h ≠ "" → extractValueFromElement el "html" = some h) ∧
    ((el.innerHtml = none ∨ el.innerHtml = some "") →
      extractValueFromElement el "html" = none) ∧
    (a ≠ "text" → a ≠ "html" →
      (∀ v, el.attrs.lookup a = some v → v ≠ "" → extractValueFromElement el a = some v) ∧
      ((el.attrs.lookup a = none ∨ el.attrs.lookup a = some "") →
        extractValueFromElement el a = none)) := by
  refine ⟨by simp [extractValueFromElement], ?_, ?_, ?_⟩
  · intro h hh hne
    simp [extractValueFromElement, jsOrNull, hh, hne]
  · intro h
    rcases h with h | h <;> simp [extractValueFromElement, jsOrNull, h]
  · intro hat hah
    refine ⟨?_, ?_⟩
    · intro v hv hne
      simp [extractValueFromElement, jsOrNull, hat, hah, hv, hne]
    · intro h
      rcases h with h | h <;> simp [extractValueFromElement, jsOrNull, hat, hah, h]

/-- Witness for `extractValue_spec` at a concrete node. -/
theorem extractValue_spec_witness :
    extractValueFromElement ⟨" x ", some "<b>x</b>", [("href", "u"), ("alt", "")]⟩ "text"
      = some (jsTrim " x ") ∧
    extractValueFromElement ⟨" x ", some "<b>x</b>", [("href", "u"), ("alt", "")]⟩ "html"
      = some "<b>x</b>" ∧
    extractValueFromElement ⟨" x ", some "<b>x</b>", [("href", "u"), ("alt", "")]⟩ "href"
      = some "u" ∧
    extractValueFromElement ⟨" x ", some "<b>x</b>", [("href", "u"), ("alt", "")]⟩ "alt"
      = none :=
  ⟨(extractValue_spec ⟨" x ", some "<b>x</b>", [("href", "u"), ("alt", "")]⟩ "href").1,
   (extractValue_spec ⟨" x ", some "<b>x</b>", [("href", "u"), ("alt", "")]⟩ "href").2.1
     "<b>x</b>" rfl (by decide),
   ((extractValue_spec ⟨" x ", some "<b>x</b>", [("href", "u"), ("alt", "")]⟩ "href").2.2.2
     (by decide) (by decide)).1 "u" (by decide) (by decide),
   ((extractValue_spec ⟨" x ", some "<b>x</b>", [("href", "u"), ("alt", "")]⟩ "alt").2.2.2
     (by decide) (by decide)).2 (Or.inr (by decide))⟩

/-! ## C8: unknown selector kinds -/

/-- A plan whose only selector has the unknown kind `"magic"`. -/
def cfgUnknown : ScraperConfig :=
  ⟨"http://e.test", [⟨"1", "x", "magic", "div", none, false⟩],
   ⟨false, "button", "", 1⟩, ⟨0, 1, 30000, 3⟩, []⟩

/-- Counterexample to claim C8: a plan whose selector kind is unknown passes
the only plan-time validation (the start guard checks just the address and the
selector count), and at evaluation time the unknown kind is ignored — it
yields no results and leaves the run state untouched (only a console
warning). -/
theorem unknownKind_counterexample :
    ¬ startGuardRejects cfgUnknown ∧
    applySelector emptyOracle 1 ⟨"1", "x", "magic", "div", none, false⟩ initialState
      = some ([], initialState) := by
  constructor
  · decide
  · decide

/-- Claim C8 as amended: an unknown selector kind is not rejected at
plan-build time — the start guard only rejects an empty address or an empty
selector list — and at evaluation time `applySelector` silently yields no
results for it, leaving the run state unchanged (apart from a logged
warning). -/
theorem unknownKind_ignored (O : PageOracle) (fuel : Nat) (sel : SelectorConfig)
    (st : ScraperState) (h1 : sel.type ≠ "css") (h2 : sel.type ≠ "xpath")
    (h3 : sel.type ≠ "regex") :
    applySelector O fuel sel st = some ([], st) ∧
    (∀ cfg : ScraperConfig, cfg.url ≠ "" → cfg.selectors ≠ [] → ¬ startGuardRejects cfg) := by
  constructor
  · unfold applySelector
    rw [if_neg h1, if_neg h2, if_neg h3]
  · intro cfg hu hs h
    rcases h with h | h
    · exact hu h
    · exact hs h

/-- Witness for `unknownKind_ignored` at a concrete unknown-kind selector. -/
theorem unknownKind_ignored_witness :
    applySelector emptyOracle 2 ⟨"9", "y", "mystery", "p", none, true⟩ initialState
      = some ([], initialState) ∧
    ¬ startGuardRejects cfgUnknown :=
  ⟨(unknownKind_ignored emptyOracle 2 ⟨"9", "y", "mystery", "p", none, true⟩ initialState
      (by decide) (by decide) (by decide)).1,
   (unknownKind_ignored emptyOracle 2 ⟨"9", "y", "mystery", "p", none, true⟩ initialState
      (by decide) (by decide) (by decide)).2 cfgUnknown (by decide) (by decide)⟩

/-! ## C10: termination of the pattern-match collection loop -/

/-- JS `exec` of the compiled global pattern `a*` against the raw body `"b"`:
at every `lastIndex` within the string bounds an empty-width match succeeds at
that position, and `exec` sets the new `lastIndex` to the end of the match —
which, for an empty match, is the same position.  In particular at
`lastIndex = 0` it returns the empty match with `lastIndex` still 0. -/
def execAStarOnB (li : Nat) : Option (String × Nat) :=
  if li ≤ 1 then some ("", li) else none

/-- The page whose raw body is `"b"`, with the pattern selector expression
`"a*"` compiled to `execAStarOnB`. -/
def oracleAStarOnB : PageOracle :=
  { query := fun _ => .ok []
  , regex := fun e => if e = "a*" then .ok execAStarOnB else .ok fun _ => none }

/-- The pattern selector `{kind: regex, expression: "a*", multiple: true}`. -/
def regexSelAStar : SelectorConfig := ⟨"1", "m", "regex", "a*", none, true⟩

/-- Claim C10 refuted (code bug): evaluating the pattern selector `a*` against
the body `"b"` never terminates — the collection loop's `exec` returns an
empty-width match at position 0 without advancing `lastIndex`, and the source
has no guard forcing progress, so no amount of fuel lets the loop finish. -/
theorem regex_empty_match_diverges :
    ∀ fuel st, applySelector oracleAStarOnB fuel regexSelAStar st = none := by
  have hloop : ∀ fuel, regexLoop execAStarOnB fuel 0 = none := by
    intro fuel
    induction fuel with
    | zero => rfl
    | succ n ih =>
      show (match execAStarOnB 0 with
        | none => some []
        | some (m, li') =>
          match n + 1 with
          | 0 => none
          | fuel + 1 => (regexLoop execAStarOnB fuel li').map fun ms => m :: ms) = none
      rw [show execAStarOnB 0 = some ("", 0) from rfl]
      simp [ih]
  intro fuel st

  unfold applySelector
  rw [if_neg (by decide), if_neg (by decide), if_pos (by decide)]
  simp [show oracleAStarOnB.regex regexSelAStar.value = .ok execAStarOnB from rfl, hloop fuel]

/-! ## C1: record structurer -/

/-- The `maxLength` fold of `structureResults` computes the maximum of its
start value and all result-list lengths. -/
theorem foldl_maxLen (rs : List (String × List SelectorResult)) (a : Nat) :
    rs.foldl (fun m p => if p.2.length > m then p.2.length else m) a
      = max a ((rs.map fun p => p.2.length).foldr max 0) := by
  induction rs generalizing a with
  | nil => simp
  | cons p t ih =>
    simp only [List.foldl_cons, List.map_cons, List.foldr_cons]
    rw [ih]
    have hstep : (if p.2.length > a then p.2.length else a) = max a p.2.length := by
      split <;> omega
    rw [hstep, Nat.max_assoc]

/-- The per-field value computed by `structureResults` agrees with the spec's
rule (in-range value, else single-result broadcast, else null). -/
theorem fieldValue_eq (l : List SelectorResult) (i : Nat) :
    (match l[i]? with
     | some r => r.value
     | none =>
       match l with
       | [r] => r.value
       | _ => EValue.vnull)
      = specFieldValue l i := by
  unfold specFieldValue
  by_cases hi : i < l.length
  · rw [List.getElem?_eq_getElem hi, dif_pos hi]
    rfl
  · rw [List.getElem?_eq_none (by omega), dif_neg hi]
    match l with
    | [] => simp
    | [r] => simp
    | r :: r' :: t =>
      rw [dif_neg (by simp)]

/-- Claim C1: for every mapping from selector names to non-empty ordered
result lists, `structureResults` produces exactly
`max(1, maximum result-list length)` records, and record `i` maps each
selector name to the value at index `i` of its list when in range, else to its
single value broadcast when that selector produced exactly one result, else to
null. -/
theorem structureResults_correct (rs : List (String × List SelectorResult))
    (hkeys : (rs.map Prod.fst).Nodup) (hne : ∀ p ∈ rs, p.2 ≠ []) :
    (structureResults rs).length = specMaxRecords rs ∧
    structureResults rs =
      (List.range (specMaxRecords rs)).map fun i =>
        rs.map fun p => (p.1, specFieldValue p.2 i) := by
  have hmax : rs.foldl (fun m p => if p.2.length > m then p.2.length else m) 1
      = specMaxRecords rs := by
    rw [foldl_maxLen]; rfl
  constructor
  · simp [structureResults, hmax]
  · unfold structureResults
    simp only [hmax]
    apply List.map_congr_left
    intro i _
    apply List.map_congr_left
    intro p _
    rw [← fieldValue_eq]

/-- Witness for `structureResults_correct` on a two-selector page: one
selector with two results, one with a single (broadcast) result. -/
theorem structureResults_correct_witness :
    ((([("price", [⟨"price", EValue.str "1"⟩, ⟨"price", EValue.str "2"⟩]),
        ("title", [⟨"title", EValue.str "T"⟩])] :
        List (String × List SelectorResult)).map Prod.fst).Nodup ∧
      ∀ p ∈ ([("price", [⟨"price", EValue.str "1"⟩, ⟨"price", EValue.str "2"⟩]),
        ("title", [⟨"title", EValue.str "T"⟩])] :
        List (String × List SelectorResult)), p.2 ≠ []) ∧
    structureResults
        [("price", [⟨"price", EValue.str "1"⟩, ⟨"price", EValue.str "2"⟩]),
         ("title", [⟨"title", EValue.str "T"⟩])]
      = (List.range (specMaxRecords
          [("price", [⟨"price", EValue.str "1"⟩, ⟨"price", EValue.str "2"⟩]),
           ("title", [⟨"title", EValue.str "T"⟩])])).map fun i =>
          [("price", [⟨"price", EValue.str "1"⟩, ⟨"price", EValue.str "2"⟩]),
           ("title", [⟨"title", EValue.str "T"⟩])].map fun p =>
            (p.1, specFieldValue p.2 i) :=
  ⟨⟨by decide, by decide⟩,
   (structureResults_correct
     [("price", [⟨"price", EValue.str "1"⟩, ⟨"price", EValue.str "2"⟩]),
      ("title", [⟨"title", EValue.str "T"⟩])] (by decide) (by decide)).2⟩

/-! ## C9: multiple=false takes at most the first match -/

/-- Claim C9: for every selector spec with `multiple = false` (structural and
pattern kinds alike) and every page, the evaluator returns at most one value;
when the evaluation completes it uses only the first structural match
(respectively the first pattern match). -/
theorem applySelector_single (O : PageOracle) (fuel : Nat) (sel : SelectorConfig)
    (st : ScraperState) (hm : sel.multiple = false) :
    (∀ res st', applySelector O fuel sel st = some (res, st') → res.length ≤ 1) ∧
    (∀ l, sel.type = "css" → O.query sel.value = .ok l →
      applySelector O fuel sel st
        = some (((l.head?.bind fun el => extractValueFromElement el (effAttr sel)).toList.map
            fun v => SelectorResult.mk sel.name (EValue.str v)), st)) ∧
    (∀ exec ms, sel.type = "regex" → O.regex sel.value = .ok exec →
      regexLoop exec fuel 0 = some ms →
      applySelector O fuel sel st
        = some ((ms.head?.toList.map fun m => SelectorResult.mk sel.name (EValue.str m)), st)) := by
  have hcss : ∀ l, sel.type = "css" → O.query sel.value = .ok l →
      applySelector O fuel sel st
        = some (((l.head?.bind fun el => extractValueFromElement el (effAttr sel)).toList.map
            fun v => SelectorResult.mk sel.name (EValue.str v)), st) := by
    intro l hty hq
    unfold applySelector
    rw [if_pos hty, hq]
    match l with
    | [] => simp
    | el :: t =>
      simp only [List.isEmpty_cons, List.head?_cons, Option.some_bind]
      rw [if_neg (by simp), if_neg (by simp [hm])]
      cases hv : extractValueFromElement el (effAttr sel) <;> simp [hv]
  have hrx : ∀ exec ms, sel.type = "regex" → O.regex sel.value = .ok exec →
      regexLoop exec fuel 0 = some ms →
      applySelector O fuel sel st
        = some ((ms.head?.toList.map fun m => SelectorResult.mk sel.name (EValue.str m)), st) := by
    intro exec ms hty hq hl
    unfold applySelector
    by_cases hc : sel.type = "css"
    · rw [hty] at hc; exact absurd hc (by decide)
    rw [if_neg hc, if_neg (by rw [hty]; decide), if_pos hty, hq]
    simp only [hl]
    match ms with
    | [] => simp
    | m :: t => simp [hm]
  refine ⟨?_, hcss, hrx⟩
  intro res st' hres
  by_cases h1 : sel.type = "css"
  · rcases hq : O.query sel.value with e | l
    · unfold applySelector at hres
      rw [if_pos h1, hq] at hres
      simp only [Option.some_inj, Prod.mk.injEq] at hres
      rcases hres with ⟨hres, -⟩
      subst hres
      simp
    · rw [hcss l h1 hq] at hres
      simp only [Option.some_inj, Prod.mk.injEq] at hres
      rcases hres with ⟨hres, -⟩
      subst hres
      cases (l.head?.bind fun el => extractValueFromElement el (effAttr sel)) <;> simp
  · by_cases h2 : sel.type = "xpath"
    · unfold applySelector at hres
      rw [if_neg h1, if_pos h2] at hres
      simp only [Option.some_inj, Prod.mk.injEq] at hres
      rcases hres with ⟨hres, -⟩
      subst hres
      simp
    · by_cases h3 : sel.type = "regex"
      · rcases hq : O.regex sel.value with e | exec
        · unfold applySelector at hres
          rw [if_neg h1, if_neg h2, if_pos h3, hq] at hres
          simp only [Option.some_inj, Prod.mk.injEq] at hres
          rcases hres with ⟨hres, -⟩
          subst hres
          simp
        · rcases hl : regexLoop exec fuel 0 with - | ms
          · unfold applySelector at hres
            rw [if_neg h1, if_neg h2, if_pos h3, hq] at hres
            simp [hl] at hres
          · rw [hrx exec ms h3 hq hl] at hres
            simp only [Option.some_inj, Prod.mk.injEq] at hres
            rcases hres with ⟨hres, -⟩
            subst hres
            cases ms.head? <;> simp
      · unfold applySelector at hres
        rw [if_neg h1, if_neg h2, if_neg h3] at hres
        simp only [Option.some_inj, Prod.mk.injEq] at hres
        rcases hres with ⟨hres, -⟩
        subst hres
        simp

/-- Witness for `applySelector_single`: a page with two structural matches and
a `multiple = false` selector yields exactly the first match's value. -/
theorem applySelector_single_witness :
    applySelector
        ⟨fun _ => .ok [⟨"one", none, []⟩, ⟨"two", none, []⟩], fun _ => .ok fun _ => none⟩
        1 ⟨"1", "t", "css", "li", none, false⟩ initialState
      = some ((([⟨"one", none, []⟩, ⟨"two", none, []⟩].head?.bind fun el =>
            extractValueFromElement el (effAttr ⟨"1", "t", "css", "li", none, false⟩)).toList.map
          fun v => SelectorResult.mk "t" (EValue.str v)), initialState) :=
  (applySelector_single
      ⟨fun _ => .ok [⟨"one", none, []⟩, ⟨"two", none, []⟩], fun _ => .ok fun _ => none⟩
      1 ⟨"1", "t", "css", "li", none, false⟩ initialState rfl).2.1
    [⟨"one", none, []⟩, ⟨"two", none, []⟩] rfl rfl

/-! ## C2: rejected start -/

/-- Counterexample to claim C2: starting with the initial config (empty
address, empty selector list) does change the run state — the service
dispatches `setError`, so the phase moves from `idle` to `error` (and the
start reducer has already reset the progress clock). -/
theorem start_invalid_counterexample :
    dispatchStart envW svc0 initialState 3
      = .ok (svc0,
          { initialState with
              status := .error
              error := some "URL and at least one selector are required"
              progress := ⟨0, 0, some 111, none⟩ }, 0) ∧
    initialState.status = Status.idle ∧
    Status.error ≠ Status.idle := by
  refine ⟨by decide, by decide, by decide⟩

/-- Claim C2 as amended: for a plan whose address is empty or whose selector
list is empty, dispatching start first runs the start reducer (phase running,
records cleared, progress reset), then the service guard rejects the plan with
a configuration error via `setError`: the run ends with phase `error` (the
spec's failed) and the message populated, the records cleared by the reset,
the history, config and service flags untouched, and no page is fetched. -/
theorem start_invalid_rejected (env : Env) (svc : Svc) (st : ScraperState) (fuel : Nat)
    (h : startGuardRejects st.config) :
    dispatchStart env svc st fuel
      = .ok (svc,
          { st with
              status := .error
              error := some "URL and at least one selector are required"
              data := []
              progress := ⟨0, 0, some env.now, none⟩ }, 0) := by
  unfold dispatchStart startScrapingModel
  rw [if_pos h]
  rfl

/-- Witness for `start_invalid_rejected` on the initial state. -/
theorem start_invalid_rejected_witness :
    startGuardRejects initialState.config ∧
    dispatchStart envW svc0 initialState 7
      = .ok (svc0,
          { initialState with
              status := .error
              error := some "URL and at least one selector are required"
              data := []
              progress := ⟨0, 0, some envW.now, none⟩ }, 0) :=
  ⟨Or.inl rfl, start_invalid_rejected envW svc0 initialState 7 (Or.inl rfl)⟩

/-! ## C3: per-selector failure recovery -/

/-- A structural selector whose expression the query engine rejects. -/
def selBad : SelectorConfig := ⟨"1", "bad", "css", "div[", none, false⟩

/-- A well-formed structural selector for the same page. -/
def selGood : SelectorConfig := ⟨"2", "title", "css", "h1", some "text", false⟩

/-- A page on which `div[` throws a parse error and `h1` matches one node. -/
def oracleC3 : PageOracle :=
  { query := fun e =>
      if e = "div[" then .error "unmatched bracket in selector"
      else if e = "h1" then .ok [⟨"Title", some "<b>Title</b>", []⟩]
      else .ok []
  , regex := fun _ => .ok fun _ => none }

/-- A run that is currently in phase running. -/
def stRunning : ScraperState := { initialState with status := .running }

set_option maxRecDepth 8000 in
/-- Counterexample to claim C3: a malformed selector expression is caught
per-selector and the page's extraction does continue (the good selector still
produces its record), but the catch invokes the error handler, which
dispatches `setError` — so a plain extraction error does transition the run's
phase to `error` (failed), contradicting the claim's last part. -/
theorem selectorError_failed_counterexample :
    processSelectors oracleC3 1 [selBad, selGood] stRunning
      = some ([[("title", EValue.str "Title")]],
          { stRunning with
              status := .error
              error := some "unmatched bracket in selector" }) ∧
    stRunning.status = Status.running ∧
    Status.error ≠ Status.running := by
  refine ⟨by decide, by decide, by decide⟩

/-- A selector whose evaluation throws with error `e` on the page `O`: a
structural selector whose query the parser rejects, or a pattern selector
whose expression fails to compile (the two throw sites inside the
try-guarded `switch` of `applySelector`). -/
def selectorThrows (O : PageOracle) (sel : SelectorConfig) (e : String) : Prop :=
  (sel.type = "css" ∧ O.query sel.value = .error e) ∨
  (sel.type = "regex" ∧ O.regex sel.value = .error e)

/-- Claim C3 as amended: a selector whose evaluation throws (malformed
structural or pattern expression alike) is caught per-selector — it
contributes no results of its own, wherever it sits in the selector list, and
the remaining selectors are still evaluated — but each such failure runs
`handleError`, which sets the phase to `error` and records the message; the
extraction as a whole still returns. -/
theorem selectorError_recovered_per_selector (O : PageOracle) (fuel : Nat)
    (sel : SelectorConfig) (e : String) (hthrows : selectorThrows O sel e) :
    (∀ st, applySelector O fuel sel st = some ([], setErrorReducer e st)) ∧
    (∀ pre rest acc st, processSelectorsGo O fuel (pre ++ sel :: rest) acc st
        = match processSelectorsGo O fuel pre acc st with
          | none => none
          | some (acc', st') =>
            processSelectorsGo O fuel rest acc' (setErrorReducer e st')) ∧
    (∀ rest st, processSelectors O fuel (sel :: rest) st
        = processSelectors O fuel rest (setErrorReducer e st)) := by
  have h1 : ∀ st, applySelector O fuel sel st = some ([], setErrorReducer e st) := by
    intro st
    rcases hthrows with ⟨hty, hq⟩ | ⟨hty, hq⟩
    · unfold applySelector
      rw [if_pos hty, hq]
      rfl
    · unfold applySelector
      rw [if_neg (by rw [hty]; decide), if_neg (by rw [hty]; decide), if_pos hty, hq]
      rfl
  have hhead : ∀ rest acc st, processSelectorsGo O fuel (sel :: rest) acc st
      = processSelectorsGo O fuel rest acc (setErrorReducer e st) := by
    intro rest acc st
    conv_lhs => rw [processSelectorsGo]
    rw [h1 st]
    rfl
  have hmid : ∀ pre rest acc st, processSelectorsGo O fuel (pre ++ sel :: rest) acc st
      = match processSelectorsGo O fuel pre acc st with
        | none => none
        | some (acc', st') =>
          processSelectorsGo O fuel rest acc' (setErrorReducer e st') := by
    intro pre
    induction pre with
    | nil =>
      intro rest acc st
      rw [List.nil_append, hhead]
      rfl
    | cons p pre ih =>
      intro rest acc st
      rw [List.cons_append]
      conv_lhs => rw [processSelectorsGo]
      conv_rhs => rw [processSelectorsGo]
      cases hp : applySelector O fuel p st with
      | none => rfl
      | some r =>
        rcases r with ⟨results, st'⟩
        exact ih rest _ st'
  refine ⟨h1, hmid, ?_⟩
  intro rest st
  unfold processSelectors
  rw [hhead]

/-- A pattern selector whose expression the RegExp engine rejects. -/
def selBadRe : SelectorConfig := ⟨"3", "prices", "regex", "([0-9", none, true⟩

/-- A page on which the pattern `([0-9` fails to compile and `h1` matches one
node; other queries match nothing. -/
def oracleC3b : PageOracle :=
  { query := fun e =>
      if e = "h1" then .ok [⟨"Title", some "<b>Title</b>", []⟩] else .ok []
  , regex := fun e =>
      if e = "([0-9" then .error "Invalid regular expression: missing )"
      else .ok fun _ => none }

/-- Witness for `selectorError_recovered_per_selector`: a pattern selector
with a malformed expression, sitting between two structural selectors, yields
no results itself while both neighbours are still evaluated. -/
theorem selectorError_recovered_witness :
    selectorThrows oracleC3b selBadRe "Invalid regular expression: missing )" ∧
    applySelector oracleC3b 2 selBadRe stRunning
      = some ([], setErrorReducer "Invalid regular expression: missing )" stRunning) ∧
    processSelectorsGo oracleC3b 2 ([selGood] ++ selBadRe :: [selGood]) [] stRunning
      = (match processSelectorsGo oracleC3b 2 [selGood] [] stRunning with
         | none => none
         | some (acc', st') =>
           processSelectorsGo oracleC3b 2 [selGood] acc'
             (setErrorReducer "Invalid regular expression: missing )" st')) ∧
    processSelectors oracleC3b 2 (selBadRe :: [selGood]) stRunning
      = processSelectors oracleC3b 2 [selGood]
          (setErrorReducer "Invalid regular expression: missing )" stRunning) :=
  ⟨Or.inr ⟨rfl, rfl⟩,
   (selectorError_recovered_per_selector oracleC3b 2 selBadRe
      "Invalid regular expression: missing )" (Or.inr ⟨rfl, rfl⟩)).1 stRunning,
   (selectorError_recovered_per_selector oracleC3b 2 selBadRe
      "Invalid regular expression: missing )" (Or.inr ⟨rfl, rfl⟩)).2.1
     [selGood] [selGood] [] stRunning,
   (selectorError_recovered_per_selector oracleC3b 2 selBadRe
      "Invalid regular expression: missing )" (Or.inr ⟨rfl, rfl⟩)).2.2
     [selGood] stRunning⟩

/-! ## C4: retry exhaustion -/

/-- Overwriting an error overwrites a previous one: only the last `setError`
is visible. -/
theorem setError_override (m m' : String) (st : ScraperState) :
    setErrorReducer m (setErrorReducer m' st) = setErrorReducer m st := rfl

/-- The proxy-specific `handleError` dispatches inside the fetch catch only
touch the status/error fields, so a later `setError` erases their effect. -/
theorem setError_proxyNote (m : String) (e : FetchErr) (st : ScraperState) :
    setErrorReducer m (proxyNoteState e st) = setErrorReducer m st := by
  unfold proxyNoteState handleErrorState
  cases e.proxyNote <;> rfl

/-- All state changes made inside `fetchUrl` are `setError` dispatches, so a
later `setError` erases them. -/
theorem setError_fetchUrlGo (att : Nat → Except FetchErr String) (m : String) :
    ∀ left rc st, setErrorReducer m ((fetchUrlGo att left rc st).2.1)
      = setErrorReducer m st := by
  intro left
  induction left with
  | zero =>
    intro rc st
    cases h : att rc with
    | ok b => simp [fetchUrlGo, h]
    | error e => simp [fetchUrlGo, h, handleErrorState, setError_override, setError_proxyNote]
  | succ k ih =>
    intro rc st
    cases h : att rc with
    | ok b => simp [fetchUrlGo, h]
    | error e => simp [fetchUrlGo, h, ih, setError_proxyNote]

/-- Claim C4: when every fetch attempt fails and the retry budget is 3, the
fetch client makes exactly 4 attempts (1 initial + 3 retries), waits
`2^attempt` seconds — 1s, 2s, 4s — before each retry (attempt counted from 0),
returns null rather than throwing past its boundary, and the run then ends in
the failed (`error`) phase with a populated error message. -/
theorem fetch_all_fail_spec (env : Env) (cfg : ScraperConfig) (svc : Svc)
    (st : ScraperState) (fuel : Nat) (hg : ¬ startGuardRejects cfg)
    (hretry : env.maxRetries = 3)
    (hfail : ∀ n, ∃ e, env.att cfg.url n = .error e) :
    (fetchUrl (env.att cfg.url) (effMaxRetries env.maxRetries) st).1 = none ∧
    (fetchUrl (env.att cfg.url) (effMaxRetries env.maxRetries) st).2.2.1
      = [1000, 2000, 4000] ∧
    (fetchUrl (env.att cfg.url) (effMaxRetries env.maxRetries) st).2.2.2 = 4 ∧
    startScrapingModel env cfg svc st fuel
      = .ok (⟨false, false, false, 0, 0⟩,
          setErrorReducer ("Failed to fetch content from " ++ cfg.url) st, 1) ∧
    (setErrorReducer ("Failed to fetch content from " ++ cfg.url) st).status
      = Status.error ∧
    (setErrorReducer ("Failed to fetch content from " ++ cfg.url) st).error
      = some ("Failed to fetch content from " ++ cfg.url) := by
  obtain ⟨e0, h0⟩ := hfail 0
  obtain ⟨e1, h1⟩ := hfail 1
  obtain ⟨e2, h2⟩ := hfail 2
  obtain ⟨e3, h3⟩ := hfail 3
  have hmr : effMaxRetries env.maxRetries = 3 := by rw [hretry]; rfl
  have htrace : (fetchUrlGo (env.att cfg.url) 3 0 st).1 = none ∧
      (fetchUrlGo (env.att cfg.url) 3 0 st).2.2.1 = [1000, 2000, 4000] ∧
      (fetchUrlGo (env.att cfg.url) 3 0 st).2.2.2 = 4 := by
    simp [fetchUrlGo, h0, h1, h2, h3]
  have hrun : startScrapingModel env cfg svc st fuel
      = .ok (⟨false, false, false, 0, 0⟩,
          setErrorReducer ("Failed to fetch content from " ++ cfg.url) st, 1) := by
    unfold startScrapingModel scrapeUrl
    rw [if_neg hg]
    rw [show fetchUrl (env.att cfg.url) (effMaxRetries env.maxRetries) st
        = fetchUrlGo (env.att cfg.url) 3 0 st by rw [fetchUrl, hmr]]
    rcases hgo : fetchUrlGo (env.att cfg.url) 3 0 st with ⟨body, stE, ds, n⟩
    have hbody : body = none := by
      have := htrace.1
      rw [hgo] at this
      exact this
    subst hbody
    simp only [handleErrorState]
    rw [show setErrorReducer ("Failed to fetch content from " ++ cfg.url) stE
        = setErrorReducer ("Failed to fetch content from " ++ cfg.url) st by
      have := setError_fetchUrlGo (env.att cfg.url)
        ("Failed to fetch content from " ++ cfg.url) 3 0 st
      rw [hgo] at this
      exact this]
    rfl
  rw [fetchUrl, hmr]
  exact ⟨htrace.1, htrace.2.1, htrace.2.2, hrun, rfl, rfl⟩

/-- A valid plan (non-empty address, one selector, pagination disabled). -/
def cfgFetch : ScraperConfig :=
  ⟨"http://e.test", [selGood], ⟨false, "button", "", 1⟩, ⟨0, 1, 30000, 3⟩, []⟩

/-- Witness for `fetch_all_fail_spec`: in the always-failing environment the
whole start run ends with phase `error` and the fetch-failure message. -/
theorem fetch_all_fail_spec_witness :
    (¬ startGuardRejects cfgFetch) ∧
    startScrapingModel envW cfgFetch svc0 initialState 2
      = .ok (⟨false, false, false, 0, 0⟩,
          setErrorReducer ("Failed to fetch content from " ++ cfgFetch.url) initialState,
          1) :=
  ⟨by decide,
   (fetch_all_fail_spec envW cfgFetch svc0 initialState 2 (by decide) rfl
     (fun _ => ⟨⟨"network error", none⟩, rfl⟩)).2.2.2.1⟩

/-! ## C5: stop while paused -/

/-- Claim C5: calling `stop()` while the run is paused forces the phase to
`idle` (not `completed`); the crawl loop then exits at its next check without
scraping any further page, the completion guard appends no history entry, and
every record collected before the stop is still present afterwards. -/
theorem stop_while_paused (env : Env) (cfg : ScraperConfig) (svc : Svc)
    (st : ScraperState) (nextPageUrl : Option String) (pages fuel : Nat)
    (hp : svc.isPaused = true) :
    crawlLoop env cfg fuel (stopScrapingCall env.now svc st).1
        (stopScrapingCall env.now svc st).2 nextPageUrl pages
      = .ok ((stopScrapingCall env.now svc st).1, (stopScrapingCall env.now svc st).2, 0) ∧
    finishRun env.now (stopScrapingCall env.now svc st).1 (stopScrapingCall env.now svc st).2
      = (stopScrapingCall env.now svc st).2 ∧
    (stopScrapingCall env.now svc st).2.status = Status.idle ∧
    (stopScrapingCall env.now svc st).2.status ≠ Status.completed ∧
    (stopScrapingCall env.now svc st).2.data = st.data ∧
    (stopScrapingCall env.now svc st).2.history = st.history := by
  refine ⟨?_, ?_, rfl, fun hcon => Status.noConfusion hcon, rfl, rfl⟩
  · cases nextPageUrl with
    | none =>
      rw [crawlLoop.eq_def]
    | some u =>
      rw [crawlLoop.eq_def]
      exact if_pos (Or.inr (Or.inl rfl))
  · unfold finishRun
    exact if_pos rfl

/-- Witness for `stop_while_paused`: a paused run with one collected record;
after the stop the loop exits, the record set and history are preserved and
the phase is idle. -/
theorem stop_while_paused_witness :
    ((⟨true, true, false, 1, 1⟩ : Svc).isPaused = true) ∧
    (crawlLoop envW cfgFetch 4
        (stopScrapingCall envW.now ⟨true, true, false, 1, 1⟩
          { stRunning with data := [[("a", EValue.str "v")]] }).1
        (stopScrapingCall envW.now ⟨true, true, false, 1, 1⟩
          { stRunning with data := [[("a", EValue.str "v")]] }).2
        (some "http://e.test/p2") 1
      = .ok ((stopScrapingCall envW.now ⟨true, true, false, 1, 1⟩
            { stRunning with data := [[("a", EValue.str "v")]] }).1,
          (stopScrapingCall envW.now ⟨true, true, false, 1, 1⟩
            { stRunning with data := [[("a", EValue.str "v")]] }).2, 0) ∧
      (stopScrapingCall envW.now ⟨true, true, false, 1, 1⟩
          { stRunning with data := [[("a", EValue.str "v")]] }).2.data
        = ({ stRunning with data := [[("a", EValue.str "v")]] } : ScraperState).data) :=
  ⟨rfl,
   (stop_while_paused envW cfgFetch ⟨true, true, false, 1, 1⟩
      { stRunning with data := [[("a", EValue.str "v")]] }
      (some "http://e.test/p2") 1 4 rfl).1,
   (stop_while_paused envW cfgFetch ⟨true, true, false, 1, 1⟩
      { stRunning with data := [[("a", EValue.str "v")]] }
      (some "http://e.test/p2") 1 4 rfl).2.2.2.2.1⟩

end DataScout
